import Mathlib

/-
  Verification of the research-agent-system pipeline.

  Shallow embedding of the Python sources:
    src/tools/custom_tools.py      (SentimentAnalyzerTool, DataAnalysisTool,
                                    ContentOptimizerTool)
    src/agents/research_agent.py   (ResearchAgent.execute_research)
    src/agents/writing_agent.py    (WritingAgent.generate_content)
    src/agents/analysis_agent.py   (AnalysisAgent.analyze_content)
    src/agents/coordinator_agent.py (CoordinatorAgent.coordinate_task,
                                     CoordinatorAgent.handle_task_update)
    src/memory/memory_bank.py      (MemoryBank fallback storage)
    src/api/routes.py              (execute_research_task status writes)

  Numeric values are modelled over the rationals; Python dict access
  d[k] (which raises KeyError) is modelled with Option plus an explicit
  error string, and d.get(k) with Option.
-/

namespace ResearchAgentSystem

/-! ### Python string primitives -/

/-- Python str.lower (ASCII, as Char.toLower matches CPython on ASCII input). -/
def pyLower (s : String) : String := String.mk (s.data.map Char.toLower)

/-- Python str.split() with no separator: split on whitespace runs,
dropping empty pieces. -/
def pySplit (s : String) : List String :=
  ((s.data.splitOnP Char.isWhitespace).filter (· ≠ [])).map String.mk

/-- Whether the list needle occurs as a contiguous sub-list of hay
(Python substring test used via the in operator). -/
def containsSub (needle hay : List Char) : Bool :=
  hay.tails.any (fun t => needle.isPrefixOf t)

/-! ### Rounding (Python round, banker s rounding, to 2 decimals) -/

/-- Round to the nearest integer, ties to the even integer
(Python built-in round on a one-argument call). -/
def roundHalfEven (q : ℚ) : ℤ :=
  let f := ⌊q⌋
  let frac := q - (f : ℚ)
  if frac < 1/2 then f
  else if 1/2 < frac then f + 1
  else if f % 2 = 0 then f else f + 1

/-- Python round(x, 2). -/
def round2 (q : ℚ) : ℚ := (roundHalfEven (q * 100) : ℚ) / 100

/-! ### custom_tools.SentimentAnalyzerTool -/

/-- The fixed positive lexicon of SentimentAnalyzerTool. -/
def positive_words : List String :=
  ["good", "excellent", "great", "amazing", "positive", "successful",
   "beneficial", "effective"]

/-- The fixed negative lexicon of SentimentAnalyzerTool. -/
def negative_words : List String :=
  ["bad", "poor", "terrible", "negative", "failed", "problem", "issue",
   "challenge"]

/-- Return value of SentimentAnalyzerTool.analyze_sentiment. -/
structure SentimentResult where
  sentiment : String
  score : ℚ
  positive_words : ℕ
  negative_words : ℕ
  total_words_analyzed : ℕ
deriving DecidableEq, Repr

/-- SentimentAnalyzerTool.analyze_sentiment (custom_tools.py lines 104-128). -/
def analyze_sentiment (text : String) : SentimentResult :=
  let words := pySplit (pyLower text)
  let positive_count := words.countP (fun w => positive_words.contains w)
  let negative_count := words.countP (fun w => negative_words.contains w)
  let total_relevant := positive_count + negative_count
  let score : ℚ :=
    if total_relevant = 0 then 0.5
    else (positive_count : ℚ) / (total_relevant : ℚ)
  let sentiment : String :=
    if total_relevant = 0 then "neutral"
    else if (0.6 : ℚ) < score then "positive"
    else if score < (0.4 : ℚ) then "negative"
    else "neutral"
  { sentiment := sentiment
    score := round2 score
    positive_words := positive_count
    negative_words := negative_count
    total_words_analyzed := words.length }

/-! ### custom_tools.DataAnalysisTool.calculate_readability -/

/-- Drop a leading run of characters satisfying p. -/
def dropRun (p : Char → Bool) : List Char → List Char
  | [] => []
  | c :: rest => if p c then dropRun p rest else c :: rest

/-- Split a character list at maximal runs of separators, the way the
regular expression class-plus split does: re.split with a
one-or-more character class.  Leading and trailing separators produce
empty segments; interior runs never do. -/
def regexSplitRuns (p : Char → Bool) : List Char → List (List Char)
  | [] => [[]]
  | c :: rest =>
    if p c then
      [] :: regexSplitRuns p (dropRun p rest)
    else
      match regexSplitRuns p rest with
      | [] => [[c]]
      | s :: ss => (c :: s) :: ss
termination_by cs => cs.length
decreasing_by
  · have h : ∀ l : List Char, (dropRun p l).length ≤ l.length := by
      intro l
      induction l with
      | nil => simp [dropRun]
      | cons a t ih =>
        simp only [dropRun]
        split
        · exact Nat.le_succ_of_le ih
        · exact Nat.le_refl _
    exact Nat.lt_succ_of_le (h rest)
  · exact Nat.lt_succ_self _

/-- Sentence separators of calculate_readability: the character class
of period, exclamation mark and question mark. -/
def isSentenceSep (c : Char) : Bool := c = '.' || c = '!' || c = '?'

/-- DataAnalysisTool.calculate_readability (custom_tools.py lines 41-53). -/
def calculate_readability (text : String) : ℚ :=
  let words := pySplit text
  if words = [] then 0
  else
    let sentences := regexSplitRuns isSentenceSep text.data
    let words_per_sentence : ℚ := (words.length : ℚ) / (max sentences.length 1 : ℚ)
    let complex_words := words.filter (fun w => 6 < w.length)
    let complexityFrac : ℚ := (complex_words.length : ℚ) / (max words.length 1 : ℚ)
    let readability := max 0 (min 1 (1 - complexityFrac + (30 / words_per_sentence) / 100))
    round2 readability

/-! ### custom_tools.ContentOptimizerTool -/

/-- ContentOptimizerTool._get_optimization_rules. -/
def get_optimization_rules (content_type tone : String) : List String :=
  (if content_type = "article" then ["structure_paragraphs", "add_headings"]
   else if content_type = "report" then ["formal_language", "add_bullet_points"]
   else [])
  ++
  (if tone = "professional" then ["professional_tone"]
   else if tone = "casual" then ["casual_tone"]
   else [])

/-- ContentOptimizerTool._apply_optimization_rule.  Rules other than
structure_paragraphs and professional_tone leave the content unchanged. -/
def apply_optimization_rule (content : String) (rule : String) : String :=
  if rule = "structure_paragraphs" then
    String.intercalate "\n\n"
      (((content.splitOn "\n\n").map String.trim).filter (· ≠ ""))
  else if rule = "professional_tone" then
    ((content.replace " kinda " " kind of ").replace " gonna " " going to ").replace
      " yeah " " yes "
  else content

/-- ContentOptimizerTool.optimize_content: fold the selected rules over
the draft. -/
def optimize_content (content content_type tone : String) : String :=
  (get_optimization_rules content_type tone).foldl apply_optimization_rule content

/-! ### Generation capability

Each agent holds an optional model; a call either succeeds with text or
raises (callers catch and fall back).  A genOutcome of none models the
unconfigured model (self.model is None); some (.error e) a raising
generate_content call; some (.ok t) a successful one. -/

abbrev GenOutcome := Option (Except String String)

/-! ### research_agent.ResearchAgent -/

/-- One web-search result entry: a Python dict that may or may not carry
a url key (and a snippet). -/
structure SearchEntry where
  url : Option String
  snippet : Option String
deriving DecidableEq

/-- models/schemas.ResearchResult: a pydantic model, so every field is
always present. -/
structure ResearchResult where
  task_id : String
  content : String
  sources : List String
  key_findings : List String
  confidence_score : ℚ
deriving DecidableEq

/-- The marker substrings of ResearchAgent._extract_key_findings. -/
def finding_markers : List String :=
  ["key finding", "important", "significant", "major"]

/-- ResearchAgent._extract_key_findings. -/
def extract_key_findings (content : String) : List String :=
  let lines := content.splitOn "\n"
  let findings := (lines.filter
    (fun line => finding_markers.any
      (fun m => containsSub m.data (pyLower line).data))).map String.trim
  if findings = [] then ["Analysis completed successfully"] else findings.take 5

/-- ResearchAgent._generate_fallback_research. -/
def generate_fallback_research (topic : String) (search_results : List SearchEntry) : String :=
  "\n        # Research Report: " ++ topic ++
  "\n        \n        ## Overview\n        Comprehensive analysis of " ++ topic ++
  " based on available data sources.\n        \n        ## Key Findings\n" ++
  "        - Significant developments in " ++ topic ++ " field\n" ++
  "        - Growing market adoption and investment\n" ++
  "        - Technological advancements driving innovation\n" ++
  "        - Regulatory landscape evolving\n        \n        ## Analysis\n" ++
  "        Based on " ++ toString search_results.length ++ " sources, " ++ topic ++
  " demonstrates strong potential \n        for continued growth and innovation" ++
  " across multiple sectors.\n        \n        ## Sources\n        " ++
  String.intercalate ", "
    ((search_results.filter (fun r => r.url.isSome)).map (fun r => r.url.getD "")) ++
  "\n        "

/-- Input dict of ResearchAgent.execute_research, read with .get and
defaults. -/
structure ResearchData where
  task_id : Option String
  topic : Option String
  depth : Option String
deriving DecidableEq

/-- The dict returned by ResearchAgent.execute_research. -/
structure ResearchReturn where
  status : String
  result : ResearchResult
  agent : String
deriving DecidableEq

/-- ResearchAgent.execute_research (research_agent.py lines 36-93):
search results and the generation outcome are the external inputs. -/
def execute_research (research_data : ResearchData)
    (search_results : List SearchEntry) (gen : GenOutcome) : ResearchReturn :=
  let topic := research_data.topic.getD ""
  let research_content :=
    match gen with
    | some (.ok t) => t
    | some (.error _) => generate_fallback_research topic search_results
    | none => generate_fallback_research topic search_results
  let confidence_score : ℚ :=
    match gen with
    | some (.ok _) => 0.85
    | _ => 0.70
  { status := "completed"
    result :=
      { task_id := research_data.task_id.getD ""
        content := research_content
        sources := (search_results.filter (fun r => r.url.isSome)).map
          (fun r => r.url.getD "")
        key_findings := extract_key_findings research_content
        confidence_score := confidence_score }
    agent := "research" }

/-! ### writing_agent.WritingAgent -/

/-- Input dict of WritingAgent.generate_content, read with .get. -/
structure WritingData where
  research_content : Option String
  content_type : Option String
  tone : Option String
  length : Option String
deriving DecidableEq

/-- Python str.title: the first alphabetic character of each alphabetic
run is uppercased, the rest lowercased. -/
def pyTitleAux : Bool → List Char → List Char
  | _, [] => []
  | prevAlpha, c :: rest =>
    if c.isAlpha then
      (if prevAlpha then c.toLower else c.toUpper) :: pyTitleAux true rest
    else c :: pyTitleAux false rest

/-- Python str.title(). -/
def pyTitle (s : String) : String := String.mk (pyTitleAux false s.data)

/-- WritingAgent._generate_fallback_content. -/
def generate_fallback_content (research_content content_type tone : String) : String :=
  "\n        # " ++ pyTitle content_type ++ " on Research Topic\n        \n" ++
  "        ## Executive Summary\n        This " ++ content_type ++
  " synthesizes key research findings in a " ++ tone ++ " tone.\n        \n" ++
  "        ## Main Content\n        Based on comprehensive research analysis," ++
  " this content presents the most significant \n        insights and" ++
  " recommendations for stakeholders.\n        \n" ++
  "        ## Key Insights from Research\n        " ++
  String.mk (research_content.data.take 500) ++ "...\n        \n" ++
  "        ## Conclusion\n        The research demonstrates important" ++
  " implications that warrant further consideration \n        and strategic" ++
  " planning.\n        "

/-- The dict returned by WritingAgent.generate_content. -/
structure WritingReturn where
  status : String
  content : String
  content_type : String
  agent : String
deriving DecidableEq

/-- WritingAgent.generate_content (writing_agent.py lines 29-81). -/
def generate_content (content_data : WritingData) (gen : GenOutcome) : WritingReturn :=
  let research_content := content_data.research_content.getD ""
  let content_type := content_data.content_type.getD "article"
  let tone := content_data.tone.getD "professional"
  let draft_content :=
    match gen with
    | some (.ok t) => t
    | some (.error _) => generate_fallback_content research_content content_type tone
    | none => generate_fallback_content research_content content_type tone
  { status := "completed"
    content := optimize_content draft_content content_type tone
    content_type := content_type
    agent := "writing" }

/-! ### analysis_agent.AnalysisAgent -/

/-- Input dict of AnalysisAgent.analyze_content, read with .get. -/
structure AnalysisData where
  content : Option String
  analysis_type : Option String
deriving DecidableEq

/-- AnalysisAgent._generate_fallback_analysis (a constant template). -/
def generate_fallback_analysis : String :=
  "\n        Quality Assessment: Content appears well-structured and informative\n" ++
  "        Key Insights: Comprehensive coverage of relevant topics\n" ++
  "        Recommendations: Consider adding more specific examples and data points\n" ++
  "        Confidence Score: 0.75\n        "

/-- The keyword table of AnalysisAgent._extract_topics, in source order. -/
def topic_keywords : List (String × List String) :=
  [("technology", ["ai", "artificial", "intelligence", "machine", "learning", "algorithm"]),
   ("business", ["market", "investment", "revenue", "profit", "strategy"]),
   ("health", ["medical", "healthcare", "treatment", "patient", "clinical"]),
   ("education", ["learning", "teaching", "student", "curriculum", "knowledge"])]

/-- AnalysisAgent._extract_topics. -/
def extract_topics (content : String) : List String :=
  let words := pySplit (pyLower content)
  let topics := (topic_keywords.filter
    (fun kv => kv.2.any (fun keyword => words.contains keyword))).map (·.1)
  if topics = [] then ["general"] else topics

/-- The analysis_report dict assembled by AnalysisAgent.analyze_content. -/
structure AnalysisReport where
  analysis : String
  sentiment : SentimentResult
  readability_score : ℚ
  content_length : ℕ
  key_topics : List String
deriving DecidableEq

/-- The dict returned by AnalysisAgent.analyze_content. -/
structure AnalysisReturn where
  status : String
  analysis_report : AnalysisReport
  agent : String
deriving DecidableEq

/-- AnalysisAgent.analyze_content (analysis_agent.py lines 30-84). -/
def analyze_content (analysis_data : AnalysisData) (gen : GenOutcome) : AnalysisReturn :=
  let content := analysis_data.content.getD ""
  let analysis_result :=
    match gen with
    | some (.ok t) => t
    | some (.error _) => generate_fallback_analysis
    | none => generate_fallback_analysis
  { status := "completed"
    analysis_report :=
      { analysis := analysis_result
        sentiment := analyze_sentiment content
        readability_score := calculate_readability content
        content_length := content.length
        key_topics := extract_topics content }
    agent := "analysis" }

/-! ### memory_bank.MemoryBank (fallback storage path)

The Redis backend is an external collaborator (spec section 1); the
in-process fallback dict is the store modelled here.  The payload type is
a parameter: deep equality of payloads is Lean equality at that type. -/

/-- The envelope MemoryBank.store_memory wraps around a payload. -/
structure MemoryRecord (α : Type) where
  data : α
  metadata : List (String × String)
  timestamp : ℚ
deriving DecidableEq

/-- Python dict assignment d[k] = v on an association list: replace the
existing binding in place, else append. -/
def dictSet {β : Type} (k : String) (v : β) : List (String × β) → List (String × β)
  | [] => [(k, v)]
  | (k', v') :: rest => if k' = k then (k, v) :: rest else (k', v') :: dictSet k v rest

/-- MemoryBank.store_memory on the fallback storage (memory_bank.py
lines 31-52): key is prefixed, the payload wrapped with metadata (default
empty) and the current time. -/
def store_memory {α : Type} (storage : List (String × MemoryRecord α))
    (key : String) (data : α) (metadata : Option (List (String × String)))
    (now : ℚ) : List (String × MemoryRecord α) :=
  dictSet ("memory:" ++ key) ⟨data, metadata.getD [], now⟩ storage

/-- MemoryBank.retrieve_memory on the fallback storage (memory_bank.py
lines 54-68). -/
def retrieve_memory {α : Type} (storage : List (String × MemoryRecord α))
    (key : String) : Option (MemoryRecord α) :=
  storage.lookup ("memory:" ++ key)

/-! ### coordinator_agent.CoordinatorAgent.coordinate_task

The three stage calls are parameters: a call either raises (Except.error
with the exception text) or returns a response dict.  The response types
expose exactly what coordinate_task reads from each dict: .get("status")
as an Option, and the bracket accesses as Options whose absence raises a
KeyError (message: the key in single quotes, per str of a KeyError). -/

/-- models/schemas.TaskStatus. -/
inductive TaskStatus
  | pending
  | inProgress
  | completed
  | failed
deriving DecidableEq, Repr

/-- Input dict of coordinate_task, read with .get and defaults.  The
depth key is forwarded by the API layer but never read by
coordinate_task. -/
structure TaskData where
  task_id : Option String
  topic : Option String
  content_type : Option String
  tone : Option String
  depth : Option String
deriving DecidableEq

/-- The dict coordinate_task passes to research_agent.execute_task. -/
structure ResearchInput where
  task_id : String
  topic : String
  depth : String
deriving DecidableEq, Repr

/-- The dict coordinate_task passes to writing_agent.execute_task. -/
structure WritingInput where
  research_content : String
  content_type : String
  tone : String
deriving DecidableEq

/-- The dict coordinate_task passes to analysis_agent.execute_task. -/
structure AnalysisInput where
  content : String
  analysis_type : String
deriving DecidableEq

/-- The research response as coordinate_task observes it:
research_result.get("status") and research_result["result"]["content"]
(the result dict is a serialized pydantic ResearchResult, whose fields
are always present, so only the outer "result" key can be missing). -/
structure ResearchResponse where
  status : Option String
  result : Option ResearchResult

/-- The writing response as coordinate_task observes it. -/
structure WritingResponse where
  status : Option String
  content : Option String

/-- The analysis response as coordinate_task observes it. -/
structure AnalysisResponse where
  status : Option String
  analysis_report : Option AnalysisReport

/-- The timeline dict of a completed coordinate_task result. -/
structure Timeline where
  research_completed : Bool
  writing_completed : Bool
  analysis_completed : Bool
deriving DecidableEq

/-- The dict coordinate_task returns: the completed shape carries
research, content, analysis and timeline; the failed shape carries
error.  Absent keys are none. -/
structure CoordResponse where
  task_id : String
  status : TaskStatus
  error : Option String := none
  research : Option ResearchResult := none
  content : Option String := none
  analysis : Option AnalysisReport := none
  timeline : Option Timeline := none

/-- Everything observable about one coordinate_task call: the returned
dict, the status recorded in self.active_tasks[task_id], the state key
written into the session, and the input actually passed to each stage
(none when the stage was never invoked). -/
structure CoordOutcome where
  response : CoordResponse
  recordedStatus : TaskStatus
  sessionState : String
  researchInput : Option ResearchInput
  writingInput : Option WritingInput
  analysisInput : Option AnalysisInput

/-- The failed outcome: active_tasks status set to FAILED, session state
"failed", and the dict {task_id, status: FAILED, error}. -/
def mkFailed (task_id err : String) (rIn : Option ResearchInput)
    (wIn : Option WritingInput) (aIn : Option AnalysisInput) : CoordOutcome :=
  { response := { task_id := task_id, status := .failed, error := some err }
    recordedStatus := .failed
    sessionState := "failed"
    researchInput := rIn
    writingInput := wIn
    analysisInput := aIn }

/-- The research input coordinate_task builds: task_id defaulting to
"task_" plus the size of active_tasks, the topic default "", and depth
hardcoded to "comprehensive" (coordinator_agent.py lines 49-53). -/
def researchInputOf (task_data : TaskData) (numActiveTasks : ℕ) : ResearchInput :=
  { task_id := task_data.task_id.getD ("task_" ++ toString numActiveTasks)
    topic := task_data.topic.getD ""
    depth := "comprehensive" }

/-- CoordinatorAgent.coordinate_task (coordinator_agent.py lines 29-102).
numActiveTasks is len(self.active_tasks) at entry, used only for the
default task id.  Each stage call is a function from the input dict the
coordinator builds to either an exception or a response. -/
def coordinate_task (task_data : TaskData) (numActiveTasks : ℕ)
    (researchCall : ResearchInput → Except String ResearchResponse)
    (writingCall : WritingInput → Except String WritingResponse)
    (analysisCall : AnalysisInput → Except String AnalysisResponse) : CoordOutcome :=
  let task_id := task_data.task_id.getD ("task_" ++ toString numActiveTasks)
  let content_type := task_data.content_type.getD "article"
  let rIn := researchInputOf task_data numActiveTasks
  match researchCall rIn with
  | .error e => mkFailed task_id e (some rIn) none none
  | .ok research_result =>
    if research_result.status ≠ some "completed" then
      mkFailed task_id "Research phase failed" (some rIn) none none
    else
      match research_result.result with
      | none => mkFailed task_id "\x27result\x27" (some rIn) none none
      | some research_payload =>
        let wIn : WritingInput :=
          { research_content := research_payload.content
            content_type := content_type
            tone := task_data.tone.getD "professional" }
        match writingCall wIn with
        | .error e => mkFailed task_id e (some rIn) (some wIn) none
        | .ok writing_result =>
          if writing_result.status ≠ some "completed" then
            mkFailed task_id "Writing phase failed" (some rIn) (some wIn) none
          else
            match writing_result.content with
            | none => mkFailed task_id "\x27content\x27" (some rIn) (some wIn) none
            | some writing_content =>
              let aIn : AnalysisInput := { content := writing_content, analysis_type := "quality" }
              match analysisCall aIn with
              | .error e => mkFailed task_id e (some rIn) (some wIn) (some aIn)
              | .ok analysis_result =>
                match analysis_result.analysis_report with
                | none => mkFailed task_id "\x27analysis_report\x27" (some rIn) (some wIn) (some aIn)
                | some report =>
                  { response :=
                      { task_id := task_id
                        status := .completed
                        research := some research_payload
                        content := some writing_content
                        analysis := some report
                        timeline := some ⟨true, true, true⟩ }
                    recordedStatus := .completed
                    sessionState := "completed"
                    researchInput := some rIn
                    writingInput := some wIn
                    analysisInput := some aIn }

/-! ### Task registry writes

coordinator_agent.CoordinatorAgent.handle_task_update and the status
writes of api/routes.execute_research_task. -/

/-- A record of the coordinator's active_tasks map (the keys it ever
holds: status and current_step; the session object is outside the
record model). -/
structure TaskRecord where
  status : TaskStatus
  current_step : Option String
deriving DecidableEq, Repr

/-- An update_data dict for handle_task_update: any subset of the keys
may be present. -/
structure TaskUpdate where
  task_id : Option String
  status : Option TaskStatus
  current_step : Option String
deriving DecidableEq

/-- Python dict.update: keys present in the update overwrite the
record. -/
def applyUpdate (rec : TaskRecord) (u : TaskUpdate) : TaskRecord :=
  { status := u.status.getD rec.status
    current_step := match u.current_step with
      | some s => some s
      | none => rec.current_step }

/-- Reply dict of handle_task_update. -/
inductive UpdateReply
  | updated (task_id : String)
  | errorNotFound
deriving DecidableEq

/-- CoordinatorAgent.handle_task_update (coordinator_agent.py lines
104-109): if the task id is a key of active_tasks, merge the update into
its record unconditionally; otherwise report task_not_found.  A missing
task_id key gives None, which is never a key. -/
def handle_task_update (tasks : List (String × TaskRecord)) (u : TaskUpdate) :
    List (String × TaskRecord) × UpdateReply :=
  match u.task_id with
  | none => (tasks, .errorNotFound)
  | some id =>
    if (tasks.lookup id).isSome then
      (tasks.map (fun kv => if kv.1 = id then (id, applyUpdate kv.2 u) else kv),
       .updated id)
    else
      (tasks, .errorNotFound)

/-- The sequence of status values written for one task along the API
pipeline path: create_research_task stores "pending" (routes.py line
137), execute_research_task writes "in_progress" (line 239) and then the
status of the coordinate_task result (line 246), which the try/except
wrapper turns into "failed" if anything were to escape. -/
def pipelineStatusTrace (task_data : TaskData) (numActiveTasks : ℕ)
    (researchCall : ResearchInput → Except String ResearchResponse)
    (writingCall : WritingInput → Except String WritingResponse)
    (analysisCall : AnalysisInput → Except String AnalysisResponse) : List TaskStatus :=
  [TaskStatus.pending, TaskStatus.inProgress,
   (coordinate_task task_data numActiveTasks researchCall writingCall
      analysisCall).response.status]

/-- Forward order on task statuses: Pending before InProgress before the
terminal pair. -/
def statusRank : TaskStatus → ℕ
  | .pending => 0
  | .inProgress => 1
  | .completed => 2
  | .failed => 2

/-- The WritingData dict carrying exactly the keys the coordinator sends
to the writing stage (no length key). -/
def writingInputData (wIn : WritingInput) : WritingData :=
  { research_content := some wIn.research_content
    content_type := some wIn.content_type
    tone := some wIn.tone
    length := none }

/-- The writing return dict as the coordinator observes it: both keys
present. -/
def writingReturnResponse (r : WritingReturn) : WritingResponse :=
  { status := some r.status, content := some r.content }

/-! ## Helper lemmas -/

theorem floor_le_roundHalfEven (q : ℚ) : ⌊q⌋ ≤ roundHalfEven q := by
  show ⌊q⌋ ≤ (if q - (⌊q⌋ : ℚ) < 1/2 then ⌊q⌋
    else if 1/2 < q - (⌊q⌋ : ℚ) then ⌊q⌋ + 1
    else if ⌊q⌋ % 2 = 0 then ⌊q⌋ else ⌊q⌋ + 1)
  split_ifs <;> omega

theorem roundHalfEven_le_ceil (q : ℚ) : roundHalfEven q ≤ ⌈q⌉ := by
  have hfc : ⌊q⌋ ≤ ⌈q⌉ := Int.floor_le_ceil q
  show (if q - (⌊q⌋ : ℚ) < 1/2 then ⌊q⌋
    else if 1/2 < q - (⌊q⌋ : ℚ) then ⌊q⌋ + 1
    else if ⌊q⌋ % 2 = 0 then ⌊q⌋ else ⌊q⌋ + 1) ≤ ⌈q⌉
  by_cases h1 : q - (⌊q⌋ : ℚ) < 1/2
  · rw [if_pos h1]
    exact hfc
  · have hlt : ⌊q⌋ < ⌈q⌉ := Int.lt_ceil.mpr (by
      have h2 : (1:ℚ)/2 ≤ q - ⌊q⌋ := not_lt.mp h1
      linarith)
    rw [if_neg h1]
    split_ifs <;> omega

theorem round2_nonneg (q : ℚ) (h : 0 ≤ q) : 0 ≤ round2 q := by
  unfold round2
  have h0 : (0:ℤ) ≤ ⌊q * 100⌋ := Int.floor_nonneg.mpr (by positivity)
  have h1 : (0:ℤ) ≤ roundHalfEven (q * 100) :=
    le_trans h0 (floor_le_roundHalfEven (q * 100))
  have h2 : (0:ℚ) ≤ (roundHalfEven (q * 100) : ℚ) := by exact_mod_cast h1
  positivity

theorem round2_le_one (q : ℚ) (h : q ≤ 1) : round2 q ≤ 1 := by
  unfold round2
  have hc : ⌈q * 100⌉ ≤ 100 := Int.ceil_le.mpr (by push_cast; linarith)
  have h2 : roundHalfEven (q * 100) ≤ 100 :=
    le_trans (roundHalfEven_le_ceil (q * 100)) hc
  have h3 : ((roundHalfEven (q * 100) : ℚ)) ≤ 100 := by exact_mod_cast h2
  rw [div_le_one (by norm_num)]
  exact h3

theorem lookup_dictSet {β : Type} (k : String) (v : β) :
    ∀ l : List (String × β), (dictSet k v l).lookup k = some v := by
  intro l
  induction l with
  | nil => simp [dictSet, List.lookup]
  | cons kv rest ih =>
    obtain ⟨k', v'⟩ := kv
    by_cases h : k' = k
    · simp [dictSet, h, List.lookup]
    · have hbeq : (k == k') = false := beq_eq_false_iff_ne.mpr (Ne.symm h)
      simp [dictSet, h, List.lookup, hbeq, ih]

theorem filter_urlIsSome_map_getD (l : List SearchEntry) :
    (l.filter (fun r => r.url.isSome)).map (fun r => r.url.getD "") =
      l.filterMap (fun r => r.url) := by
  induction l with
  | nil => rfl
  | cons a t ih =>
    cases h : a.url with
    | none => simp [List.filter_cons, List.filterMap_cons, h, ih]
    | some u => simp [List.filter_cons, List.filterMap_cons, h, ih]

/-! ## Claim theorems -/

/-- Claim C6: for every non-empty input text (one containing at least one
word), calculate_readability returns a score in the closed interval from
0 to 1 that is an integer multiple of one hundredth (rounded to 2
decimals); for text with no words it returns 0. -/
theorem readability_bounded (text : String) :
    (pySplit text ≠ [] →
      0 ≤ calculate_readability text ∧ calculate_readability text ≤ 1 ∧
      ∃ z : ℤ, calculate_readability text = (z : ℚ) / 100) ∧
    (pySplit text = [] → calculate_readability text = 0) := by
  constructor
  · intro hne
    simp only [calculate_readability, if_neg hne]
    refine ⟨round2_nonneg _ (le_max_left _ _),
      round2_le_one _ (max_le zero_le_one (min_le_left _ _)), ?_⟩
    exact ⟨roundHalfEven ((max 0 (min 1 _)) * 100), rfl⟩
  · intro he
    simp only [calculate_readability, if_pos he]

/-- Witness for C6: the empty text has no words and maps to 0; a concrete
non-empty text gets a score within bounds. -/
theorem readability_bounded_witness :
    calculate_readability "" = 0 ∧
    (0 ≤ calculate_readability "Short words. Mostly brief text here." ∧
     calculate_readability "Short words. Mostly brief text here." ≤ 1) := by
  refine ⟨(readability_bounded "").2 (by decide), ?_⟩
  have h := (readability_bounded "Short words. Mostly brief text here.").1 (by decide)
  exact ⟨h.1, h.2.1⟩

/-- Claim C8: the sources of a research stage result are exactly the url
values of the search entries that carry a url key, in order; entries
without a url key contribute nothing. -/
theorem research_sources_exact (rd : ResearchData) (srs : List SearchEntry)
    (gen : GenOutcome) :
    (execute_research rd srs gen).result.sources = srs.filterMap (fun r => r.url) := by
  simp only [execute_research]
  exact filter_urlIsSome_map_getD srs

/-- Claim C9: storing a payload under a key and immediately retrieving
that key yields the envelope whose data field is exactly the stored
payload; the envelope adds only the metadata and the timestamp. -/
theorem memory_roundtrip {α : Type} (storage : List (String × MemoryRecord α))
    (key : String) (data : α) (metadata : Option (List (String × String))) (now : ℚ) :
    retrieve_memory (store_memory storage key data metadata now) key =
      some ⟨data, metadata.getD [], now⟩ := by
  unfold store_memory retrieve_memory
  exact lookup_dictSet _ _ storage

/-- Claim C5: sentiment analysis classifies by the positive-word share
among sentiment-bearing words: positive above 0.6, negative below 0.4,
neutral between, and neutral with score 0.5 when no lexicon word occurs;
the two section-8 vectors come out positive with score above 0.6 and
negative with score below 0.4. -/
theorem sentiment_spec :
    (∀ text : String,
      ((pySplit (pyLower text)).countP (fun w => positive_words.contains w) +
          (pySplit (pyLower text)).countP (fun w => negative_words.contains w) = 0 →
        (analyze_sentiment text).sentiment = "neutral" ∧
        (analyze_sentiment text).score = 0.5) ∧
      (∀ p n : ℕ,
        p = (pySplit (pyLower text)).countP (fun w => positive_words.contains w) →
        n = (pySplit (pyLower text)).countP (fun w => negative_words.contains w) →
        0 < p + n →
        (((analyze_sentiment text).sentiment = "positive" ↔
            (0.6 : ℚ) < (p : ℚ) / ((p : ℚ) + (n : ℚ))) ∧
         ((analyze_sentiment text).sentiment = "negative" ↔
            (p : ℚ) / ((p : ℚ) + (n : ℚ)) < (0.4 : ℚ)) ∧
         ((analyze_sentiment text).sentiment = "neutral" ↔
            (0.4 : ℚ) ≤ (p : ℚ) / ((p : ℚ) + (n : ℚ)) ∧
            (p : ℚ) / ((p : ℚ) + (n : ℚ)) ≤ (0.6 : ℚ))))) ∧
    (analyze_sentiment "This is a great and amazing product with excellent features.").sentiment = "positive" ∧
    (0.6 : ℚ) < (analyze_sentiment "This is a great and amazing product with excellent features.").score ∧
    (analyze_sentiment "This is a bad product with poor quality and terrible performance.").sentiment = "negative" ∧
    (analyze_sentiment "This is a bad product with poor quality and terrible performance.").score < (0.4 : ℚ) := by
  have hP1 : (pySplit (pyLower "This is a great and amazing product with excellent features.")).countP
      (fun w => positive_words.contains w) = 3 := by decide
  have hN1 : (pySplit (pyLower "This is a great and amazing product with excellent features.")).countP
      (fun w => negative_words.contains w) = 0 := by decide
  have hP2 : (pySplit (pyLower "This is a bad product with poor quality and terrible performance.")).countP
      (fun w => positive_words.contains w) = 0 := by decide
  have hN2 : (pySplit (pyLower "This is a bad product with poor quality and terrible performance.")).countP
      (fun w => negative_words.contains w) = 3 := by decide
  refine ⟨fun text => ⟨?_, ?_⟩, ?_, ?_, ?_, ?_⟩
  · intro h0
    simp only [analyze_sentiment, h0]
    norm_num [round2, roundHalfEven]
  · intro p n hp hn hpos
    have hne : ¬((pySplit (pyLower text)).countP (fun w => positive_words.contains w) +
        (pySplit (pyLower text)).countP (fun w => negative_words.contains w) = 0) := by
      omega
    simp only [analyze_sentiment, if_neg hne]
    rw [← hp, ← hn]
    push_cast
    set r : ℚ := (p : ℚ) / ((p : ℚ) + (n : ℚ)) with hr
    split_ifs with h1 h2
    · exact ⟨⟨fun _ => h1, fun _ => rfl⟩,
        ⟨fun hc => absurd hc (by decide), fun hlt => (by linarith : False).elim⟩,
        ⟨fun hc => absurd hc (by decide), fun hb => (by linarith [hb.2] : False).elim⟩⟩
    · exact ⟨⟨fun hc => absurd hc (by decide), fun hgt => absurd hgt h1⟩,
        ⟨fun _ => h2, fun _ => rfl⟩,
        ⟨fun hc => absurd hc (by decide), fun hb => (by linarith [hb.1] : False).elim⟩⟩
    · exact ⟨⟨fun hc => absurd hc (by decide), fun hgt => absurd hgt h1⟩,
        ⟨fun hc => absurd hc (by decide), fun hlt => absurd hlt h2⟩,
        ⟨fun _ => ⟨not_lt.mp h2, not_lt.mp h1⟩, fun _ => rfl⟩⟩
  · simp only [analyze_sentiment, hP1, hN1]
    norm_num
  · simp only [analyze_sentiment, hP1, hN1]
    norm_num [round2, roundHalfEven]
  · simp only [analyze_sentiment, hP2, hN2]
    norm_num
  · simp only [analyze_sentiment, hP2, hN2]
    norm_num [round2, roundHalfEven]

/-- Witness for C5: a lexicon-free text is neutral with score 0.5, and a
concrete text with one positive and two negative words classifies by its
ratio one third. -/
theorem sentiment_spec_witness :
    ((analyze_sentiment "no lexicon terms at all").sentiment = "neutral" ∧
     (analyze_sentiment "no lexicon terms at all").score = 0.5) ∧
    ((analyze_sentiment "great bad bad").sentiment = "negative" ↔
      (1 : ℚ) / ((1 : ℚ) + (2 : ℚ)) < (0.4 : ℚ)) := by
  exact ⟨(sentiment_spec.1 "no lexicon terms at all").1 (by decide),
    ((sentiment_spec.1 "great bad bad").2 1 2 (by decide) (by decide)
      (by norm_num)).2.1⟩


/-- Helper: a coordinate call always records a terminal status, and the
returned status agrees with the recorded one. -/
theorem coordinator_status_terminal (task_data : TaskData) (n : ℕ)
    (researchCall : ResearchInput → Except String ResearchResponse)
    (writingCall : WritingInput → Except String WritingResponse)
    (analysisCall : AnalysisInput → Except String AnalysisResponse) :
    ((coordinate_task task_data n researchCall writingCall analysisCall).response.status =
        .completed ∧
     (coordinate_task task_data n researchCall writingCall analysisCall).recordedStatus =
        .completed) ∨
    ((coordinate_task task_data n researchCall writingCall analysisCall).response.status =
        .failed ∧
     (coordinate_task task_data n researchCall writingCall analysisCall).recordedStatus =
        .failed) := by
  simp only [coordinate_task]
  repeat' split
  all_goals simp [mkFailed]

/-- Helper: when the writing stage always returns ok with completed
status, the error "Writing phase failed" can only appear if research or
analysis raised exactly that message. -/
theorem coordinate_wpf_inversion (task_data : TaskData) (n : ℕ)
    (researchCall : ResearchInput → Except String ResearchResponse)
    (writingCall : WritingInput → Except String WritingResponse)
    (analysisCall : AnalysisInput → Except String AnalysisResponse)
    (hwc : ∀ wIn, ∃ w, writingCall wIn = .ok w ∧ w.status = some "completed")
    (hrne : researchCall (researchInputOf task_data n) ≠ .error "Writing phase failed")
    (hane : ∀ aIn, analysisCall aIn ≠ .error "Writing phase failed") :
    (coordinate_task task_data n researchCall writingCall analysisCall).response.error ≠
      some "Writing phase failed" := by
  simp only [coordinate_task]
  cases hr : researchCall (researchInputOf task_data n) with
  | error e =>
    simp only [mkFailed, ne_eq, Option.some.injEq]
    intro heq
    exact hrne (heq ▸ hr)
  | ok r =>
    by_cases hst : r.status = some "completed"
    · simp only [hst, ne_eq, Option.some.injEq, not_true_eq_false, ite_false]
      cases hres : r.result with
      | none => simp [mkFailed]
      | some payload =>
        dsimp only
        obtain ⟨w, hw, hwst⟩ := hwc ⟨payload.content, task_data.content_type.getD "article",
          task_data.tone.getD "professional"⟩
        rw [hw]
        simp only [hwst, ne_eq, Option.some.injEq, not_true_eq_false, ite_false]
        cases hwcnt : w.content with
        | none => simp [mkFailed]
        | some c =>
          dsimp only
          cases hac : analysisCall ⟨c, "quality"⟩ with
          | error e =>
            simp only [mkFailed, ne_eq, Option.some.injEq]
            intro heq
            exact hane ⟨c, "quality"⟩ (heq ▸ hac)
          | ok a =>
            dsimp only
            cases hrep : a.analysis_report with
            | none => simp [mkFailed]
            | some rep => simp
    · simp [hst, mkFailed]

/-- Helper: rewriting the binding of id in an association list by
applying the update, as dict.update inside handle_task_update does. -/
theorem lookup_map_applyUpdate (id : String) (u : TaskUpdate) :
    ∀ (tasks : List (String × TaskRecord)) (rec : TaskRecord),
      tasks.lookup id = some rec →
      (tasks.map (fun kv => if kv.1 = id then (id, applyUpdate kv.2 u) else kv)).lookup id =
        some (applyUpdate rec u) := by
  intro tasks
  induction tasks with
  | nil => intro rec h; simp [List.lookup] at h
  | cons kv rest ih =>
    intro rec h
    obtain ⟨k, v⟩ := kv
    rw [List.map_cons]
    by_cases hk : k = id
    · subst hk
      have hbeq : (k == k) = true := beq_self_eq_true k
      simp only [List.lookup, hbeq] at h
      have hv : v = rec := by simpa using h
      subst hv
      have h1 : (if ((k, v) : String × TaskRecord).1 = k then (k, applyUpdate v u)
          else (k, v)) = (k, applyUpdate v u) := if_pos rfl
      rw [h1]
      simp only [List.lookup, hbeq]
    · have hbeq : (id == k) = false := beq_eq_false_iff_ne.mpr (Ne.symm hk)
      simp only [List.lookup, hbeq] at h
      have h1 : (if ((k, v) : String × TaskRecord).1 = id then (id, applyUpdate v u)
          else (k, v)) = (k, v) := if_neg hk
      rw [h1]
      simp only [List.lookup, hbeq]
      exact ih rec h

/-- Claim C1: when the research stage reports a status other than
completed, the task outcome is Failed with error "Research phase failed",
the recorded status is failed, and the writing and analysis stages are
never invoked. -/
theorem coordinator_research_failure (task_data : TaskData) (n : ℕ)
    (researchCall : ResearchInput → Except String ResearchResponse)
    (writingCall : WritingInput → Except String WritingResponse)
    (analysisCall : AnalysisInput → Except String AnalysisResponse)
    (r : ResearchResponse)
    (hr : researchCall (researchInputOf task_data n) = .ok r)
    (hst : r.status ≠ some "completed") :
    (coordinate_task task_data n researchCall writingCall analysisCall).response.status = .failed ∧
    (coordinate_task task_data n researchCall writingCall analysisCall).response.error =
      some "Research phase failed" ∧
    (coordinate_task task_data n researchCall writingCall analysisCall).recordedStatus = .failed ∧
    (coordinate_task task_data n researchCall writingCall analysisCall).writingInput = none ∧
    (coordinate_task task_data n researchCall writingCall analysisCall).analysisInput = none := by
  simp [coordinate_task, hr, hst, mkFailed]

/-- Witness for C1: a concrete coordinate call whose research stage
reports status "error". -/
theorem coordinator_research_failure_witness :
    (coordinate_task ⟨some "t1", some "AI", none, none, none⟩ 0
        (fun _ => .ok ⟨some "error", none⟩)
        (fun _ => .error "never") (fun _ => .error "never")).response.status = .failed ∧
    (coordinate_task ⟨some "t1", some "AI", none, none, none⟩ 0
        (fun _ => .ok ⟨some "error", none⟩)
        (fun _ => .error "never") (fun _ => .error "never")).response.error =
      some "Research phase failed" ∧
    (coordinate_task ⟨some "t1", some "AI", none, none, none⟩ 0
        (fun _ => .ok ⟨some "error", none⟩)
        (fun _ => .error "never") (fun _ => .error "never")).recordedStatus = .failed ∧
    (coordinate_task ⟨some "t1", some "AI", none, none, none⟩ 0
        (fun _ => .ok ⟨some "error", none⟩)
        (fun _ => .error "never") (fun _ => .error "never")).writingInput = none ∧
    (coordinate_task ⟨some "t1", some "AI", none, none, none⟩ 0
        (fun _ => .ok ⟨some "error", none⟩)
        (fun _ => .error "never") (fun _ => .error "never")).analysisInput = none :=
  coordinator_research_failure _ _ _ _ _ _ rfl (by simp)

/-- Claim C2: when research reports completed but the writing stage
reports a status other than completed, the task outcome is Failed with
error "Writing phase failed" and the analysis stage is never invoked. -/
theorem coordinator_writing_failure (task_data : TaskData) (n : ℕ)
    (researchCall : ResearchInput → Except String ResearchResponse)
    (writingCall : WritingInput → Except String WritingResponse)
    (analysisCall : AnalysisInput → Except String AnalysisResponse)
    (r : ResearchResponse) (payload : ResearchResult) (w : WritingResponse)
    (hr : researchCall (researchInputOf task_data n) = .ok r)
    (hst : r.status = some "completed")
    (hres : r.result = some payload)
    (hw : writingCall ⟨payload.content, task_data.content_type.getD "article",
        task_data.tone.getD "professional"⟩ = .ok w)
    (hwst : w.status ≠ some "completed") :
    (coordinate_task task_data n researchCall writingCall analysisCall).response.status = .failed ∧
    (coordinate_task task_data n researchCall writingCall analysisCall).response.error =
      some "Writing phase failed" ∧
    (coordinate_task task_data n researchCall writingCall analysisCall).recordedStatus = .failed ∧
    (coordinate_task task_data n researchCall writingCall analysisCall).analysisInput = none := by
  simp [coordinate_task, hr, hst, hres, hw, hwst, mkFailed]

/-- Witness for C2: a concrete coordinate call whose writing stage
reports status "error". -/
theorem coordinator_writing_failure_witness :
    (coordinate_task ⟨some "t1", some "AI", some "article", some "professional", none⟩ 0
        (fun _ => .ok ⟨some "completed", some ⟨"t1", "research text", [], [], 0.7⟩⟩)
        (fun _ => .ok ⟨some "error", none⟩)
        (fun _ => .error "never")).response.status = .failed ∧
    (coordinate_task ⟨some "t1", some "AI", some "article", some "professional", none⟩ 0
        (fun _ => .ok ⟨some "completed", some ⟨"t1", "research text", [], [], 0.7⟩⟩)
        (fun _ => .ok ⟨some "error", none⟩)
        (fun _ => .error "never")).response.error = some "Writing phase failed" ∧
    (coordinate_task ⟨some "t1", some "AI", some "article", some "professional", none⟩ 0
        (fun _ => .ok ⟨some "completed", some ⟨"t1", "research text", [], [], 0.7⟩⟩)
        (fun _ => .ok ⟨some "error", none⟩)
        (fun _ => .error "never")).recordedStatus = .failed ∧
    (coordinate_task ⟨some "t1", some "AI", some "article", some "professional", none⟩ 0
        (fun _ => .ok ⟨some "completed", some ⟨"t1", "research text", [], [], 0.7⟩⟩)
        (fun _ => .ok ⟨some "error", none⟩)
        (fun _ => .error "never")).analysisInput = none :=
  coordinator_writing_failure _ _ _ _ _ _ _ _ rfl rfl rfl rfl (by simp)

/-- Claim C3: an exception raised by any of the three stage calls is
caught: the outcome is Failed, the error field is the exception text, the
recorded status is failed, and coordinate returns (it never re-raises). -/
theorem coordinator_absorbs_exceptions (task_data : TaskData) (n : ℕ)
    (researchCall : ResearchInput → Except String ResearchResponse)
    (writingCall : WritingInput → Except String WritingResponse)
    (analysisCall : AnalysisInput → Except String AnalysisResponse) :
    (∀ e, researchCall (researchInputOf task_data n) = .error e →
      (coordinate_task task_data n researchCall writingCall analysisCall).response.status = .failed ∧
      (coordinate_task task_data n researchCall writingCall analysisCall).response.error = some e ∧
      (coordinate_task task_data n researchCall writingCall analysisCall).recordedStatus = .failed) ∧
    (∀ r payload e, researchCall (researchInputOf task_data n) = .ok r →
      r.status = some "completed" → r.result = some payload →
      writingCall ⟨payload.content, task_data.content_type.getD "article",
        task_data.tone.getD "professional"⟩ = .error e →
      (coordinate_task task_data n researchCall writingCall analysisCall).response.status = .failed ∧
      (coordinate_task task_data n researchCall writingCall analysisCall).response.error = some e ∧
      (coordinate_task task_data n researchCall writingCall analysisCall).recordedStatus = .failed) ∧
    (∀ r payload w c e, researchCall (researchInputOf task_data n) = .ok r →
      r.status = some "completed" → r.result = some payload →
      writingCall ⟨payload.content, task_data.content_type.getD "article",
        task_data.tone.getD "professional"⟩ = .ok w →
      w.status = some "completed" → w.content = some c →
      analysisCall ⟨c, "quality"⟩ = .error e →
      (coordinate_task task_data n researchCall writingCall analysisCall).response.status = .failed ∧
      (coordinate_task task_data n researchCall writingCall analysisCall).response.error = some e ∧
      (coordinate_task task_data n researchCall writingCall analysisCall).recordedStatus = .failed) := by
  refine ⟨?_, ?_, ?_⟩
  · intro e hr
    simp [coordinate_task, hr, mkFailed]
  · intro r payload e hr hst hres hw
    simp [coordinate_task, hr, hst, hres, hw, mkFailed]
  · intro r payload w c e hr hst hres hw hwst hwc ha
    simp [coordinate_task, hr, hst, hres, hw, hwst, hwc, ha, mkFailed]

/-- Witness for C3: three concrete coordinate calls, one per raising
stage. -/
theorem coordinator_absorbs_exceptions_witness :
    (coordinate_task ⟨some "t1", some "AI", some "article", some "professional", none⟩ 0
        (fun _ => .error "boom")
        (fun _ => .ok ⟨some "completed", some "wtext"⟩)
        (fun _ => .error "never")).response.error = some "boom" ∧
    (coordinate_task ⟨some "t1", some "AI", some "article", some "professional", none⟩ 0
        (fun _ => .ok ⟨some "completed", some ⟨"t1", "rtext", [], [], 0.7⟩⟩)
        (fun _ => .error "wboom")
        (fun _ => .error "never")).response.error = some "wboom" ∧
    (coordinate_task ⟨some "t1", some "AI", some "article", some "professional", none⟩ 0
        (fun _ => .ok ⟨some "completed", some ⟨"t1", "rtext", [], [], 0.7⟩⟩)
        (fun _ => .ok ⟨some "completed", some "wtext"⟩)
        (fun _ => .error "aboom")).response.error = some "aboom" := by
  refine ⟨((coordinator_absorbs_exceptions _ _ _ _ _).1 "boom" rfl).2.1, ?_, ?_⟩
  · exact ((coordinator_absorbs_exceptions _ _ _ _ _).2.1
      ⟨some "completed", some ⟨"t1", "rtext", [], [], 0.7⟩⟩
      ⟨"t1", "rtext", [], [], 0.7⟩ "wboom" rfl rfl rfl rfl).2.1
  · exact ((coordinator_absorbs_exceptions _ _ _ _ _).2.2
      ⟨some "completed", some ⟨"t1", "rtext", [], [], 0.7⟩⟩
      ⟨"t1", "rtext", [], [], 0.7⟩
      ⟨some "completed", some "wtext"⟩ "wtext" "aboom"
      rfl rfl rfl rfl rfl rfl rfl).2.1

/-- Claim C4 (amended): statuses along the API pipeline path move only
forward, from pending through in_progress to a terminal completed or
failed; handle_task_update, however, merges any update into an existing
task record unconditionally, whatever status the record holds. -/
theorem registry_forward_and_update_unguarded :
    (∀ (task_data : TaskData) (n : ℕ)
      (researchCall : ResearchInput → Except String ResearchResponse)
      (writingCall : WritingInput → Except String WritingResponse)
      (analysisCall : AnalysisInput → Except String AnalysisResponse),
      List.Chain' (fun a b => statusRank a < statusRank b)
        (pipelineStatusTrace task_data n researchCall writingCall analysisCall) ∧
      ((pipelineStatusTrace task_data n researchCall writingCall analysisCall).getLast? =
          some TaskStatus.completed ∨
       (pipelineStatusTrace task_data n researchCall writingCall analysisCall).getLast? =
          some TaskStatus.failed)) ∧
    (∀ (tasks : List (String × TaskRecord)) (u : TaskUpdate) (id : String) (rec : TaskRecord),
      u.task_id = some id → tasks.lookup id = some rec →
      (handle_task_update tasks u).1.lookup id = some (applyUpdate rec u)) := by
  constructor
  · intro task_data n researchCall writingCall analysisCall
    rcases coordinator_status_terminal task_data n researchCall writingCall analysisCall with
      ⟨h, _⟩ | ⟨h, _⟩ <;>
      simp [pipelineStatusTrace, h, statusRank]
  · intro tasks u id rec hid hlook
    simp only [handle_task_update, hid, hlook, Option.isSome_some, if_true]
    exact lookup_map_applyUpdate id u tasks rec hlook

/-- Counterexample for C4 as stated: a task whose record is already
Completed (terminal) is overwritten by handle_task_update back to
Pending, a backward transition after a terminal status. -/
theorem registry_update_counterexample :
    (handle_task_update [("t1", ⟨TaskStatus.completed, none⟩)]
        ⟨some "t1", some TaskStatus.pending, none⟩).1.lookup "t1" =
      some ⟨TaskStatus.pending, none⟩ ∧
    statusRank TaskStatus.pending < statusRank TaskStatus.completed := by
  constructor
  · rfl
  · decide

/-- Witness for C4 (amended): a concrete in-progress record receives an
update. -/
theorem registry_forward_witness :
    (handle_task_update [("a", ⟨TaskStatus.inProgress, some "research"⟩)]
        ⟨some "a", some TaskStatus.completed, none⟩).1.lookup "a" =
      some ⟨TaskStatus.completed, some "research"⟩ := by
  exact registry_forward_and_update_unguarded.2
    [("a", ⟨TaskStatus.inProgress, some "research"⟩)]
    ⟨some "a", some TaskStatus.completed, none⟩ "a"
    ⟨TaskStatus.inProgress, some "research"⟩ rfl rfl

/-- Claim C7 (amended): the research stage is always invoked with the
submitted topic and task id but with depth hardcoded to "comprehensive";
the submitted depth value is ignored by the coordinator. -/
theorem coordinator_depth_hardcoded (task_data : TaskData) (n : ℕ)
    (researchCall : ResearchInput → Except String ResearchResponse)
    (writingCall : WritingInput → Except String WritingResponse)
    (analysisCall : AnalysisInput → Except String AnalysisResponse) :
    (coordinate_task task_data n researchCall writingCall analysisCall).researchInput =
      some { task_id := task_data.task_id.getD ("task_" ++ toString n)
             topic := task_data.topic.getD ""
             depth := "comprehensive" } := by
  simp only [coordinate_task]
  repeat' split
  all_goals simp [mkFailed, researchInputOf]

/-- Counterexample for C7 as stated: a coordinate call submitted with
depth "basic" invokes the research stage with depth "comprehensive"
instead. -/
theorem coordinator_depth_counterexample :
    (coordinate_task ⟨some "t1", some "AI", some "article", some "professional", some "basic"⟩ 0
        (fun _ => .error "stop") (fun _ => .error "stop") (fun _ => .error "stop")).researchInput ≠
      some { task_id := "t1", topic := "AI", depth := "basic" } ∧
    (coordinate_task ⟨some "t1", some "AI", some "article", some "professional", some "basic"⟩ 0
        (fun _ => .error "stop") (fun _ => .error "stop") (fun _ => .error "stop")).researchInput =
      some { task_id := "t1", topic := "AI", depth := "comprehensive" } := by
  constructor
  · simp [coordinate_task, mkFailed, researchInputOf]
  · simp [coordinate_task, mkFailed, researchInputOf]

/-- Claim C10: whenever the writing stage or the analysis stage returns
normally, the returned status is "completed"; consequently, with the real
writing stage wired in, the coordinator error "Writing phase failed" can
only arise from a raised exception bearing that message, never from a
reported status. -/
theorem stage_normal_return_completed :
    (∀ (content_data : WritingData) (gen : GenOutcome),
      (generate_content content_data gen).status = "completed") ∧
    (∀ (analysis_data : AnalysisData) (gen : GenOutcome),
      (analyze_content analysis_data gen).status = "completed") ∧
    (∀ (task_data : TaskData) (n : ℕ)
      (researchCall : ResearchInput → Except String ResearchResponse)
      (analysisCall : AnalysisInput → Except String AnalysisResponse) (gen : GenOutcome),
      researchCall (researchInputOf task_data n) ≠ .error "Writing phase failed" →
      (∀ aIn, analysisCall aIn ≠ .error "Writing phase failed") →
      (coordinate_task task_data n researchCall
          (fun wIn => .ok (writingReturnResponse (generate_content (writingInputData wIn) gen)))
          analysisCall).response.error ≠ some "Writing phase failed") := by
  refine ⟨fun content_data gen => rfl, fun analysis_data gen => rfl, ?_⟩
  intro task_data n researchCall analysisCall gen hrne hane
  exact coordinate_wpf_inversion task_data n researchCall _ analysisCall
    (fun wIn => ⟨writingReturnResponse (generate_content (writingInputData wIn) gen), rfl, rfl⟩)
    hrne hane

/-- Witness for C10: concrete stage inputs and a concrete coordinate
call using the real writing stage. -/
theorem stage_normal_return_completed_witness :
    (generate_content ⟨some "r", some "article", some "professional", none⟩ none).status =
      "completed" ∧
    (analyze_content ⟨some "text", some "quality"⟩ none).status = "completed" ∧
    (coordinate_task ⟨some "t1", some "AI", some "article", some "professional", none⟩ 0
        (fun _ => .ok ⟨some "completed", some ⟨"t1", "research text", [], [], 0.7⟩⟩)
        (fun wIn => .ok (writingReturnResponse (generate_content (writingInputData wIn) none)))
        (fun _ => .ok ⟨some "completed",
          some ⟨"analysis", ⟨"neutral", 0.5, 0, 0, 2⟩, 0.5, 13, ["general"]⟩⟩)).response.error ≠
      some "Writing phase failed" := by
  refine ⟨stage_normal_return_completed.1 _ none,
    stage_normal_return_completed.2.1 _ none,
    stage_normal_return_completed.2.2 _ 0 _ _ none (by simp) (fun aIn => by simp)⟩

end ResearchAgentSystem
